import Mathlib

/-!
Shallow embedding of `core/__init__.py` of the Requester package: the
`RequestCommandMixin` engine — environment extraction (`reset_env_string`,
`reset_env_file`), environment evaluation (`get_env`), the asynchronous
environment runner (`_run`), response gathering (`gather_responses`) and the
activity indicator (`get_activity_indicator`).

Conventions: Python strings are `String`, `None`-able values are `Option`,
Python `dict`s are insertion-ordered association lists, machine integers are
`Nat` (all quantities involved are non-negative and never overflow in the
source), and the dynamic `exec` / `imp.load_source` calls are oracles passed
in as function arguments, since they run arbitrary buffer-controlled code.
View state that the methods read or write (the `requester.env_string` and
`requester.env_file` settings, the status bar entry) is threaded explicitly.
-/

namespace Requester

/-- `RequestCommandMixin.REFRESH_MS` (period of checks on async operations). -/
def REFRESH_MS : Nat := 200

/-- `RequestCommandMixin.ACTIVITY_SPACES` (spaces in the activity indicator). -/
def ACTIVITY_SPACES : Nat := 9

/-- Python `' ' * n`. -/
def pad (n : Nat) : String := String.mk (List.replicate n ' ')

/-- The local `before` computed by `get_activity_indicator` (lines 242-246):
`cycle = count // spaces`; `count % spaces` on an even cycle, else
`spaces - count % spaces`. -/
def indicator_before (count spaces : Nat) : Nat :=
  if count / spaces % 2 = 0 then count % spaces else spaces - count % spaces

/-- The local `after = spaces - before` (line 247). -/
def indicator_after (count spaces : Nat) : Nat :=
  spaces - indicator_before count spaces

/-- `RequestCommandMixin.get_activity_indicator` (lines 238-248):
`'[{}={}]'.format(' ' * before, ' ' * after)`. -/
def get_activity_indicator (count spaces : Nat) : String :=
  "[" ++ pad (indicator_before count spaces) ++ "=" ++ pad (indicator_after count spaces) ++ "]"

/-- The indicator as §4.6 of the specification words it, for comparison with
`get_activity_indicator`: `cycle = tick div width`; if `cycle` is even,
`before = tick mod width`, else `before = width - (tick mod width)`;
`after = width - before`; a bracketed string of `before` blank positions,
the fill glyph, and `after` further positions. -/
def render_spec (tick width : Nat) : String :=
  let cycle := tick / width
  let before := if cycle % 2 = 0 then tick % width else width - tick % width
  let after := width - before
  "[" ++ pad before ++ "=" ++ pad after ++ "]"

/-- How `_run` (lines 70-91) can end: `timedOut tick` is the
`sublime.error_message('Timeout Error: ...')` branch returning at `tick`,
`proceeded tick` is the `else` branch that calls `make_requests`, and
`pending` means the simulation fuel ran out while the loop was still
rescheduling itself. -/
inductive RunOutcome where
  | timedOut (tick : Nat)
  | proceeded (tick : Nat)
  | pending
deriving DecidableEq

/-- `REFRESH_MULTIPLIER` local to `_run` (line 75). -/
def REFRESH_MULTIPLIER : Nat := 4

/-- `RequestCommandMixin._run` (lines 70-91) as a fuelled tick simulation.
`aliveAt count` models `thread.is_alive()` as read on tick `count`;
`timeout_env` is the `timeout_env` setting (seconds). The `String` component
is the final value of the `requester.activity` status entry: each tick with
`count > 0` sets it to the `RequesterEnv` indicator, and both the timeout
branch (line 84) and the `make_requests` branch (line 90) clear it to `""`
before returning. The timeout test is line 82:
`count * REFRESH_MS / REFRESH_MULTIPLIER > timeout * 1000`. -/
def run_loop (aliveAt : Nat → Bool) (timeout_env : Option Nat) :
    Nat → Nat → String → RunOutcome × String
  | 0, _, status => (RunOutcome.pending, status)
  | fuel + 1, count, status =>
    let activity := get_activity_indicator (count / REFRESH_MULTIPLIER) ACTIVITY_SPACES
    let status1 := if count > 0 then "RequesterEnv " ++ activity else status
    if aliveAt count then
      match timeout_env with
      | Option.some timeout =>
        if count * REFRESH_MS / REFRESH_MULTIPLIER > timeout * 1000 then
          (RunOutcome.timedOut count, "")
        else
          run_loop aliveAt timeout_env fuel (count + 1) status1
      | Option.none => run_loop aliveAt timeout_env fuel (count + 1) status1
    else
      (RunOutcome.proceeded count, "")

/-- A completed record handed back by the worker pool: `request`, `response`,
`error` and `ordering` keys (docstring of `gather_responses`, lines 214-215). -/
structure Response where
  request : String
  response : Option String
  error : Option String
  ordering : Nat
deriving DecidableEq

/-- The per-record callback invocations made while draining the pool. -/
inductive Event where
  | handleResponse (r : Response) (num_requests : Nat)
  | handleError (r : Response) (num_requests : Nat)
deriving DecidableEq

/-- Modelled from the spec: `ResponseThreadPool.num_requests` lives in
`core/responses.py`, which is not part of this repository slice; §4.5 and
§6 of the spec say the per-item callbacks receive "the total original
request count". -/
def num_requests (total : Nat) : Nat := total

/-- The `while len(pool.responses)` drain loop of `gather_responses`
(lines 223-227): pop the earliest completed record, append it to the
accumulating list, call `handle_response` and then `handle_error` on it,
each with `num_requests=pool.num_requests()`. Returns the updated
accumulated list and the callback invocations appended to `events`. -/
def drainLoop (total : Nat) :
    List Response → List Response → List Event → List Response × List Event
  | [], collected, events => (collected, events)
  | r :: queue, collected, events =>
    drainLoop total queue (collected ++ [r])
      (events ++ [Event.handleResponse r (num_requests total), Event.handleError r (num_requests total)])

/-- One polling tick's consistent snapshot of the pool: `arrivals` is the
FIFO content of `pool.responses` when the tick drains it, `is_done` the
value of `pool.is_done` cached at the start of the tick (line 218). -/
structure PoolTick where
  arrivals : List Response
  is_done : Bool
deriving DecidableEq

/-- The sort key of line 230: `responses.sort(key=lambda response: response.ordering)`. -/
def respLe (a b : Response) : Prop := a.ordering ≤ b.ordering

instance : DecidableRel respLe := fun a b => Nat.decLe a.ordering b.ordering

instance : IsTotal Response respLe := ⟨fun a b => Nat.le_total a.ordering b.ordering⟩

instance : IsTrans Response respLe := ⟨fun _ _ _ h h2 => Nat.le_trans h h2⟩

/-- `RequestCommandMixin.gather_responses` (lines 209-236) over a schedule of
pool snapshots, one per polling tick. Each tick caches `is_done`, drains the
queue into `responses`, and when `is_done` holds sorts `responses` by
`ordering` (Python's stable sort, modelled by `insertionSort`) and returns
the list that is passed to both `handle_responses` and `handle_errors`.
Otherwise the loop reschedules onto the next snapshot; `none` means the
schedule was exhausted while the pool was still reporting work in flight. -/
def gather_responses (total : Nat) : List PoolTick → List Response → Option (List Response)
  | [], _ => Option.none
  | tick :: rest, responses =>
    let is_done := tick.is_done
    let drained := drainLoop total tick.arrivals responses []
    if is_done then
      Option.some (List.insertionSort respLe drained.1)
    else
      gather_responses total rest drained.1

/-- The pool never yields a record after it has reported itself done: once a
snapshot has `is_done`, all later snapshots carry no arrivals. -/
def doneConsistent : List PoolTick → Prop
  | [] => True
  | tick :: rest =>
    (tick.is_done = true → rest.flatMap PoolTick.arrivals = []) ∧ doneConsistent rest

/-- Python truthiness of a nullable string: `None` and `''` are falsy. -/
def pyTruthy : Option String → Bool
  | Option.none => false
  | Option.some s => !s.data.isEmpty

/-- `RequestCommandMixin.handle_errors` (lines 53-59): the comprehension
`['{}\n{}'.format(r.request, r.error) for r in responses if r.error]`,
joined with blank lines and passed to `sublime.error_message` when
non-empty. The result is the text of that single blocking report, or `none`
when no report is shown. -/
def handle_errors (responses : List Response) : Option String :=
  let errors := (responses.filter fun r => pyTruthy r.error).map fun r =>
    r.request ++ "\n" ++ r.error.getD ""
  if errors.isEmpty then Option.none
  else Option.some (String.intercalate "\n\n" errors)

/-- Python `str.splitlines` restricted to `\n` separators (the only line
break relevant to the embedded buffers): split on every newline and do not
produce a final empty line for a trailing newline. -/
def splitlinesChars : List Char → List Char → List (List Char)
  | [], cur => if cur.isEmpty then [] else [cur]
  | c :: rest, cur =>
    if c = '\n' then cur :: splitlinesChars rest []
    else splitlinesChars rest (cur ++ [c])

/-- `self.view.substr(...).splitlines()` on the full buffer text. -/
def splitlines (s : String) : List String :=
  (splitlinesChars s.data []).map fun l => String.mk l

/-- The `delimeter` literal of `reset_env_string` (line 109). -/
def delimeter : String := "###env"

/-- The line scan of `reset_env_string` (lines 110-120): toggle `in_block`
on delimiter lines, collect the lines strictly inside the block, and stop at
the closing delimiter (`break`). Returns the collected lines and the final
`in_block` flag. -/
def scan_env_lines : List String → Bool → List String → List String × Bool
  | [], in_block, env_lines => (env_lines, in_block)
  | line :: rest, in_block, env_lines =>
    if in_block then
      if line = delimeter then (env_lines, false)
      else scan_env_lines rest true (env_lines ++ [line])
    else
      if line = delimeter then scan_env_lines rest true env_lines
      else scan_env_lines rest false env_lines

/-- The sequence of values `reset_env_string` assigns to the
`requester.env_string` setting, in order (lines 121-123): the `None`
assignment guarded by `not len(env_lines) or in_block` is followed by the
unconditional assignment of `'\n'.join(env_lines)`. -/
def reset_env_string_sets (text : String) : List (Option String) :=
  let scanned := scan_env_lines (splitlines text) false []
  (if scanned.1.isEmpty || scanned.2 then [Option.none] else []) ++
    [Option.some (String.intercalate "\n" scanned.1)]

/-- `RequestCommandMixin.reset_env_string` (lines 103-123) as a transformer
of the `requester.env_string` setting: on a requester-generated view the
method returns early and the setting keeps its previous value; otherwise the
setting ends up holding the last value assigned. -/
def reset_env_string (is_requester_view : Bool) (text : String) (prev : Option String) :
    Option String :=
  if is_requester_view then prev
  else (reset_env_string_sets text).foldl (fun _ v => v) prev

/-- Python's `\s` character class, minus `\n` (which cannot occur inside a
split line). -/
def pws (c : Char) : Bool :=
  c = ' ' || c = '\t' || c = '\r' || c = Char.ofNat 11 || c = Char.ofNat 12

/-- `re.compile('\s*env_file\s*=.*')` applied with `p.match(line)` (anchored
at the start of the line, line 132-134): optional whitespace, the literal
`env_file`, optional whitespace, `=`, anything. -/
def matchesDirective (line : String) : Bool :=
  let rest := line.data.dropWhile pws
  "env_file".data.isPrefixOf rest &&
    (match (rest.drop 8).dropWhile pws with
     | '=' :: _ => true
     | _ => false)

/-- `os.path.isabs`, POSIX. -/
def isabs (p : String) : Bool :=
  match p.data with
  | '/' :: _ => true
  | _ => false

/-- `os.path.dirname`, POSIX: everything up to the last `/`, with trailing
slashes stripped unless the head is all slashes. -/
def dirname (p : String) : String :=
  let head := (p.data.reverse.dropWhile fun c => !(c = '/')).reverse
  if head.all fun c => c = '/' then String.mk head
  else String.mk (head.reverse.dropWhile fun c => c = '/').reverse

/-- `os.path.join` for the two-argument uses in `reset_env_file`, POSIX. -/
def joinPath (d f : String) : String :=
  if isabs f then f
  else if d.data.isEmpty then f
  else
    match d.data.getLast? with
    | Option.some '/' => d ++ f
    | _ => d ++ "/" ++ f

/-- The value of `scope.get('env_file')` after the first matching directive
line is `exec`-ed (lines 131-143). The oracle `exec_line` models
`exec(line, scope)` in a fresh scope followed by the `if env_file:`
truthiness test and the `str(env_file)` conversion: it yields the string
form of a truthy `env_file` binding, and `none` when the `exec` raises (the
exception is swallowed), leaves `env_file` unset, or binds it to a falsy
value. `none` is also the result when no line matches the pattern. -/
def env_file_directive (exec_line : String → Option String) (text : String) : Option String :=
  match (splitlines text).find? matchesDirective with
  | Option.some line => exec_line line
  | Option.none => Option.none

/-- `RequestCommandMixin.reset_env_file` (lines 125-152) as a transformer of
the `requester.env_file` setting. `file_name` models `self.view.file_name()`.
Note the branch in which the directive value is a relative path and the view
has no backing file: no assignment is performed there, so the setting keeps
its previous value. -/
def reset_env_file (is_requester_view : Bool) (file_name : Option String)
    (exec_line : String → Option String) (text : String) (prev : Option String) :
    Option String :=
  if is_requester_view then prev
  else
    match env_file_directive exec_line text with
    | Option.some env_file =>
      if isabs env_file then Option.some env_file
      else
        match file_name with
        | Option.some fp => Option.some (joinPath (dirname fp) env_file)
        | Option.none => prev
    | Option.none => Option.none

/-- Python runtime values, at the granularity the environment dictionaries
need: `None`, integers, strings, and `obj` for any other object (modules,
the builtins table). -/
inductive PyVal where
  | pynone
  | int (n : Int)
  | str (s : String)
  | obj
deriving DecidableEq

/-- Python `dict` assignment `d[k] = v`: replace the value in place when the
key exists, else append the new entry (insertion order preserved). -/
def dupdate (d : List (String × PyVal)) (k : String) (v : PyVal) : List (String × PyVal) :=
  if d.any fun p => p.1 == k then
    d.map fun p => if p.1 == k then (k, v) else p
  else d ++ [(k, v)]

/-- Python `d.update(entries)`, and likewise the sequential binding of names
by executed code: left-to-right `dict` assignment of every entry. -/
def updMany (d : List (String × PyVal)) (entries : List (String × PyVal)) :
    List (String × PyVal) :=
  entries.foldl (fun acc p => dupdate acc p.1 p.2) d

/-- Python `d.get(k)`. -/
def dget (d : List (String × PyVal)) (k : String) : Option PyVal :=
  match d.find? fun p => p.1 == k with
  | Option.some p => Option.some p.2
  | Option.none => Option.none

/-- The `__dict__` of `imp.new_module('requester.env')` together with the
`__builtins__` key that `exec` installs before running the code: a faithful
subset of the language-internal names present in the inline namespace
independently of the user code. -/
def module_init : List (String × PyVal) :=
  [("__name__", PyVal.str "requester.env"), ("__doc__", PyVal.pynone),
   ("__builtins__", PyVal.obj)]

/-- `dict(env.__dict__)` after `exec(env_string, env.__dict__)` succeeded,
where the user code bound `user` (in execution order, line 176). -/
def exec_namespace (user : List (String × PyVal)) : List (String × PyVal) :=
  updMany module_init user

/-- `vars(env)` for `env = imp.load_source('requester.env', env_file)`
(line 185): the module's implicit names (`imp.load_source` also sets
`__file__`) updated by the bindings `user` the file's code made. -/
def file_namespace (env_file : String) (user : List (String × PyVal)) :
    List (String × PyVal) :=
  updMany [("__name__", PyVal.str "requester.env"), ("__file__", PyVal.str env_file),
           ("__builtins__", PyVal.obj)] user

/-- The inline phase of `get_env` (lines 166-176): starting from the empty
`env_dict`, when `env_string` is truthy run it through the `exec` oracle; on
success `env_dict` becomes `dict(env.__dict__)`, on an exception (the
`EnvBlock Error` report) the contribution is dropped. -/
def inline_step (env_string : Option String)
    (exec_inline : String → Option (List (String × PyVal))) : List (String × PyVal) :=
  match env_string with
  | Option.some s =>
    if s.data.isEmpty then []
    else
      match exec_inline s with
      | Option.some user => exec_namespace user
      | Option.none => []
  | Option.none => []

/-- The file phase of `get_env` (lines 178-186): when `env_file` is truthy
load it through the `imp.load_source` oracle; on success
`env_dict.update(vars(env))` (file bindings take precedence), on an
exception (the `EnvFile Error` report) the contribution is dropped. -/
def file_step (env_dict : List (String × PyVal)) (env_file : Option String)
    (load_source : String → Option (List (String × PyVal))) : List (String × PyVal) :=
  match env_file with
  | Option.some f =>
    if f.data.isEmpty then env_dict
    else
      match load_source f with
      | Option.some user => updMany env_dict (file_namespace f user)
      | Option.none => env_dict
  | Option.none => env_dict

/-- `RequestCommandMixin.get_env` (lines 154-187). `env_string` and
`env_file` are the two settings; the oracles model the dynamic code
execution, returning the user-level bindings on success and `none` on an
exception. The `sys.modules` purge of lines 161-164 has no observable
effect in this per-call model, which always builds fresh namespaces. The
final line is `return env_dict or None`. -/
def get_env (env_string env_file : Option String)
    (exec_inline : String → Option (List (String × PyVal)))
    (load_source : String → Option (List (String × PyVal))) :
    Option (List (String × PyVal)) :=
  let env_dict := inline_step env_string exec_inline
  let env_dict := file_step env_dict env_file load_source
  if env_dict.isEmpty then Option.none else Option.some env_dict

/-- "The inline source is present (truthy) and evaluates successfully." -/
def inline_ok (env_string : Option String)
    (exec_inline : String → Option (List (String × PyVal))) : Bool :=
  match env_string with
  | Option.some s => !s.data.isEmpty && (exec_inline s).isSome
  | Option.none => false

/-- "The file source is present (truthy) and evaluates successfully." -/
def file_ok (env_file : Option String)
    (load_source : String → Option (List (String × PyVal))) : Bool :=
  match env_file with
  | Option.some f => !f.data.isEmpty && (load_source f).isSome
  | Option.none => false

/-- Concrete records for the concrete-input theorems below. -/
def respA : Response := ⟨"get(\"http://a\")", Option.none, Option.none, 0⟩

def respB : Response := ⟨"get(\"http://b\")", Option.none, Option.none, 1⟩

def respC : Response := ⟨"get(\"http://c\")", Option.none, Option.some "Connection Error", 2⟩

/-- A degenerate record whose error is the empty string: non-null but falsy. -/
def respEmptyErr : Response := ⟨"get(\"http://d\")", Option.none, Option.some "", 0⟩

/-- A completion schedule: the third request finishes first, the other two on
the final tick. -/
def ticksW : List PoolTick := [⟨[respC], false⟩, ⟨[respA, respB], true⟩]

/-- Oracle: the inline block binds `a = 1` and `b = 2`. -/
def exec_ab : String → Option (List (String × PyVal)) :=
  fun _ => Option.some [("a", PyVal.int 1), ("b", PyVal.int 2)]

/-- Oracle: the environment file binds `b = 3` and `c = 4`. -/
def load_bc : String → Option (List (String × PyVal)) :=
  fun _ => Option.some [("b", PyVal.int 3), ("c", PyVal.int 4)]

/-- Oracle: evaluation always raises. -/
def exec_fails : String → Option (List (String × PyVal)) := fun _ => Option.none

/-- Oracle for the directive line `env_file = "e.py"`: `exec` binds the
relative path `e.py`. -/
def exec_rel : String → Option String :=
  fun line => if line = "env_file = \"e.py\"" then Option.some "e.py" else Option.none

/-- Oracle: the directive line never yields a truthy `env_file`. -/
def exec_none_line : String → Option String := fun _ => Option.none

/-- The environment of the spec's merge-precedence example: inline binds
`{a:1, b:2}`, the file binds `{b:3, c:4}`. -/
def merged_example : Option (List (String × PyVal)) :=
  get_env (Option.some "a = 1\nb = 2") (Option.some "/tmp/requester_env.py") exec_ab load_bc

lemma pad_length (n : Nat) : (pad n).length = n := by
  simp [pad, String.length]

lemma drainLoop_fst (total : Nat) :
    ∀ queue collected events, (drainLoop total queue collected events).1 = collected ++ queue := by
  intro queue
  induction queue with
  | nil => intro collected events; simp [drainLoop]
  | cons r rest ih => intro collected events; simp [drainLoop, ih]

lemma gather_responses_done (total : Nat) :
    ∀ ticks responses, doneConsistent ticks → ticks.any PoolTick.is_done = true →
      gather_responses total ticks responses =
        Option.some (List.insertionSort respLe (responses ++ ticks.flatMap PoolTick.arrivals)) := by
  intro ticks
  induction ticks with
  | nil => intro responses hdc hany; simp at hany
  | cons tick rest ih =>
    intro responses hdc hany
    rcases hdc with ⟨hhead, htail⟩
    by_cases hd : tick.is_done = true
    · have hrest : rest.flatMap PoolTick.arrivals = [] := hhead hd
      simp [gather_responses, hd, drainLoop_fst, hrest]
    · have hany' : rest.any PoolTick.is_done = true := by
        rcases List.any_eq_true.mp hany with ⟨x, hx, hxd⟩
        rcases List.mem_cons.mp hx with hx1 | hx1
        · exact absurd (hx1 ▸ hxd) hd
        · exact List.any_eq_true.mpr ⟨x, hx1, hxd⟩
      simp [gather_responses, hd, drainLoop_fst]
      rw [ih (responses ++ tick.arrivals) htail hany']
      simp

lemma run_loop_timeout_aux (t : Nat) :
    ∀ fuel count status, count ≤ 20 * t + 1 → 20 * t + 1 - count < fuel →
      run_loop (fun _ => true) (Option.some t) fuel count status =
        (RunOutcome.timedOut (20 * t + 1), "") := by
  intro fuel
  induction fuel with
  | zero => intro count status h1 h2; omega
  | succ n ih =>
    intro count status h1 h2
    by_cases hc : count = 20 * t + 1
    · have hcond : (20 * t + 1) * REFRESH_MS / REFRESH_MULTIPLIER > t * 1000 := by
        unfold REFRESH_MS REFRESH_MULTIPLIER
        omega
      simp [run_loop, hc, hcond]
    · have hcount : count ≤ 20 * t := by omega
      have hcond : ¬ count * REFRESH_MS / REFRESH_MULTIPLIER > t * 1000 := by
        unfold REFRESH_MS REFRESH_MULTIPLIER
        omega
      simp [run_loop, hcond]
      exact ih (count + 1) _ (by omega) (by omega)

lemma dupdate_ne_nil (d : List (String × PyVal)) (k : String) (v : PyVal) :
    dupdate d k v ≠ [] := by
  unfold dupdate
  by_cases h : (d.any fun p => p.1 == k) = true
  · rw [if_pos h]
    rcases d with _ | ⟨p, rest⟩
    · simp at h
    · simp
  · rw [if_neg h]
    simp

lemma updMany_ne_nil (d entries : List (String × PyVal)) (h : d ≠ [] ∨ entries ≠ []) :
    updMany d entries ≠ [] := by
  induction entries generalizing d with
  | nil =>
    rcases h with hd | he
    · simpa [updMany] using hd
    · exact absurd rfl he
  | cons e rest ih =>
    have hstep : updMany d (e :: rest) = updMany (dupdate d e.1 e.2) rest := rfl
    rw [hstep]
    exact ih (dupdate d e.1 e.2) (Or.inl (dupdate_ne_nil d e.1 e.2))

lemma exec_namespace_ne_nil (user : List (String × PyVal)) : exec_namespace user ≠ [] :=
  updMany_ne_nil module_init user (Or.inl (by simp [module_init]))

lemma file_namespace_ne_nil (f : String) (user : List (String × PyVal)) :
    file_namespace f user ≠ [] :=
  updMany_ne_nil _ user (Or.inl (by simp))

/-- C1: for a submitted request list of length `total`, when the pool yields
exactly one completed record per request (the orderings of all delivered
records are a permutation of `0..total-1`), never delivers after reporting
itself done, and eventually reports done, the list `gather_responses` hands
to the batch-level callbacks on the final tick has exactly `total` records
and is sorted ascending by ordering index, i.e. its orderings are exactly
`0, 1, ..., total-1` — regardless of the completion and drain order encoded
in the schedule. -/
theorem gather_responses_restores_order (ticks : List PoolTick) (total : Nat)
    (hperm : List.Perm ((ticks.flatMap PoolTick.arrivals).map Response.ordering)
      (List.range total))
    (hdc : doneConsistent ticks)
    (hany : ticks.any PoolTick.is_done = true) :
    ∃ final, gather_responses total ticks [] = Option.some final ∧
      final.map Response.ordering = List.range total ∧ final.length = total := by
  have hgather := gather_responses_done total ticks [] hdc hany
  have hfinal : (List.insertionSort respLe (ticks.flatMap PoolTick.arrivals)).map
      Response.ordering = List.range total := by
    have hp : List.Perm
        ((List.insertionSort respLe (ticks.flatMap PoolTick.arrivals)).map Response.ordering)
        (List.range total) :=
      ((List.perm_insertionSort respLe _).map Response.ordering).trans hperm
    have hs1 : List.Sorted (fun a b : Nat => a ≤ b)
        ((List.insertionSort respLe (ticks.flatMap PoolTick.arrivals)).map Response.ordering) := by
      rw [List.Sorted, List.pairwise_map]
      exact List.sorted_insertionSort respLe _
    have hs2 : List.Sorted (fun a b : Nat => a ≤ b) (List.range total) :=
      (List.pairwise_lt_range total).imp Nat.le_of_lt
    exact List.eq_of_perm_of_sorted hp hs1 hs2
  have hlen : (List.insertionSort respLe (ticks.flatMap PoolTick.arrivals)).length = total := by
    have hcongr := congrArg List.length hfinal
    simpa using hcongr
  exact ⟨List.insertionSort respLe (ticks.flatMap PoolTick.arrivals),
    by simpa using hgather, hfinal, hlen⟩

/-- Witness for C1: three requests completing out of order (`respC` first,
then `respA` and `respB` on the done tick) are reported as exactly three
records with orderings `0, 1, 2`. -/
theorem gather_responses_restores_order_witness :
    List.Perm ((ticksW.flatMap PoolTick.arrivals).map Response.ordering) (List.range 3) ∧
    doneConsistent ticksW ∧ ticksW.any PoolTick.is_done = true ∧
    ∃ final, gather_responses 3 ticksW [] = Option.some final ∧
      final.map Response.ordering = List.range 3 ∧ final.length = 3 :=
  ⟨by decide, by simp [doneConsistent, ticksW], by decide,
    gather_responses_restores_order ticksW 3 (by decide)
      (by simp [doneConsistent, ticksW]) (by decide)⟩

/-- C5: with `timeout_env = t` seconds configured and an environment thread
that never finishes, the polling loop `_run` ends in the timeout branch —
surfacing the blocking `Timeout Error` (the `timedOut` outcome), clearing
the `requester.activity` status to `""`, and never reaching the
`make_requests` branch (`proceeded`). The abort happens exactly at tick
`20 * t + 1`, the first tick at which `tick * REFRESH_MS /
REFRESH_MULTIPLIER` exceeds `t * 1000` milliseconds — one 50 ms polling
cycle past the deadline tick `20 * t`. -/
theorem run_timeout_aborts (t fuel : Nat) (hf : 20 * t + 1 < fuel) :
    run_loop (fun _ => true) (Option.some t) fuel 0 "" =
      (RunOutcome.timedOut (20 * t + 1), "") ∧
    20 * t * REFRESH_MS / REFRESH_MULTIPLIER ≤ t * 1000 ∧
    t * 1000 < (20 * t + 1) * REFRESH_MS / REFRESH_MULTIPLIER := by
  refine ⟨run_loop_timeout_aux t fuel 0 "" (by omega) (by omega), ?_, ?_⟩
  · unfold REFRESH_MS REFRESH_MULTIPLIER
    omega
  · unfold REFRESH_MS REFRESH_MULTIPLIER
    omega

/-- Witness for C5: `timeout_env = 1` aborts at tick 21 with the status
cleared, within 25 simulated ticks. -/
theorem run_timeout_aborts_witness :
    20 * 1 + 1 < 25 ∧
    run_loop (fun _ => true) (Option.some 1) 25 0 "" =
      (RunOutcome.timedOut (20 * 1 + 1), "") :=
  ⟨by decide, (run_timeout_aborts 1 25 (by decide)).1⟩

/-- C7: for every `tick` and positive `width`, `get_activity_indicator`
renders exactly the glyph the spec's formula describes (`render_spec`, with
`cycle = tick div width`, `before = tick mod width` on even cycles and
`width - tick mod width` on odd ones, `after = width - before`), and the
sweep is periodic with full back-and-forth period `2 * width` ticks. -/
theorem get_activity_indicator_spec_and_period (tick width : Nat) (h : 0 < width) :
    get_activity_indicator tick width = render_spec tick width ∧
    get_activity_indicator (tick + 2 * width) width = get_activity_indicator tick width := by
  constructor
  · rfl
  · have hb : indicator_before (tick + 2 * width) width = indicator_before tick width := by
      unfold indicator_before
      rw [Nat.mul_comm 2 width, Nat.add_mul_div_left tick 2 h, Nat.add_mul_mod_self_left,
        Nat.add_mod_right]
    simp [get_activity_indicator, indicator_after, hb]

/-- Witness for C7 at `tick = 12`, `width = 9` (an odd cycle). -/
theorem get_activity_indicator_spec_and_period_witness :
    0 < 9 ∧
    (get_activity_indicator 12 9 = render_spec 12 9 ∧
      get_activity_indicator (12 + 2 * 9) 9 = get_activity_indicator 12 9) :=
  ⟨by decide, get_activity_indicator_spec_and_period 12 9 (by decide)⟩

/-- C10: for every `count` and positive `spaces`, the computed `before` and
`after` (non-negative by construction in `Nat`, with `before ≤ spaces` so no
truncation occurs) sum to `spaces`, hence the indicator string always has
the constant length `spaces + 3` — it never changes width as the tick
counter grows. -/
theorem get_activity_indicator_constant_width (count spaces : Nat) (h : 0 < spaces) :
    indicator_before count spaces + indicator_after count spaces = spaces ∧
    (get_activity_indicator count spaces).length = spaces + 3 := by
  have hb : indicator_before count spaces ≤ spaces := by
    unfold indicator_before
    split
    · exact Nat.le_of_lt (Nat.mod_lt count h)
    · exact Nat.sub_le spaces (count % spaces)
  have hsum : indicator_before count spaces + indicator_after count spaces = spaces := by
    unfold indicator_after
    omega
  refine ⟨hsum, ?_⟩
  have h1 : ("[" : String).length = 1 := rfl
  have h2 : ("=" : String).length = 1 := rfl
  have h3 : ("]" : String).length = 1 := rfl
  simp [get_activity_indicator, String.length_append, pad_length, h1, h2, h3]
  omega

/-- Witness for C10 at `count = 13`, `spaces = 9`. -/
theorem get_activity_indicator_constant_width_witness :
    0 < 9 ∧
    (indicator_before 13 9 + indicator_after 13 9 = 9 ∧
      (get_activity_indicator 13 9).length = 9 + 3) :=
  ⟨by decide, get_activity_indicator_constant_width 13 9 (by decide)⟩

/-- C2 (code bug): on a buffer whose single `###env` delimiter line is
followed by content but never closed, `reset_env_string` leaves
`requester.env_string` set to the joined block content, not null: the
guarded `None` assignment of lines 121-122 is unconditionally overwritten by
line 123, because the guard body lacks an early return. Downstream
(`get_env`, line 168) the non-empty string is truthy and is executed as an
inline environment. -/
theorem reset_env_string_unterminated_block :
    reset_env_string false "###env\nx = 1" Option.none = Option.some "x = 1" := by
  decide

/-- C6 amended: while draining, `handle_response` and `handle_error` are
both invoked for every drained record — `handle_error` unconditionally, not
only for records carrying a non-null error (the default `handle_error` is a
no-op, so filtering on the error is left to overrides) — in that order, each
receiving the record and the pool's total original request count. -/
theorem drainLoop_callbacks (total : Nat) :
    ∀ queue collected events,
      drainLoop total queue collected events =
        (collected ++ queue,
         events ++ queue.flatMap fun r =>
           [Event.handleResponse r (num_requests total), Event.handleError r (num_requests total)]) := by
  intro queue
  induction queue with
  | nil => intro collected events; simp [drainLoop]
  | cons r rest ih => intro collected events; simp [drainLoop, ih]

/-- Counterexample for C6 as stated: a drained record with a null error
still gets a `handle_error` invocation (right after its `handle_response`),
so the error callback is not invoked only for records with a non-null
error. -/
theorem drainLoop_error_callback_unconditional :
    respA.error = Option.none ∧
    (drainLoop 1 [respA] [] []).2 =
      [Event.handleResponse respA (num_requests 1), Event.handleError respA (num_requests 1)] := by
  decide

/-- C9 amended: `handle_errors` presents nothing exactly when no record
carries a truthy error (non-null and non-empty — the comprehension filters
with Python truthiness `if r.error`, so an empty-string error is skipped
too); otherwise it presents, as one blocking report, the truthy-error
records each formatted as `request + newline + error` and joined by blank
lines. -/
theorem handle_errors_report (responses : List Response) :
    (handle_errors responses = Option.none ↔
      responses.all (fun r => !pyTruthy r.error) = true) ∧
    ∀ s, handle_errors responses = Option.some s →
      s = String.intercalate "\n\n" ((responses.filter fun r => pyTruthy r.error).map fun r =>
        r.request ++ "\n" ++ r.error.getD "") := by
  have key : ((responses.filter fun r => pyTruthy r.error).map fun r =>
      r.request ++ "\n" ++ r.error.getD "").isEmpty = true ↔
      responses.all (fun r => !pyTruthy r.error) = true := by
    rw [List.isEmpty_iff, List.map_eq_nil_iff, List.filter_eq_nil_iff, List.all_eq_true]
    simp
  cases hb : ((responses.filter fun r => pyTruthy r.error).map fun r =>
      r.request ++ "\n" ++ r.error.getD "").isEmpty with
  | true =>
    constructor
    · refine ⟨fun _ => key.mp hb, fun _ => ?_⟩
      simp [handle_errors, hb]
    · intro s hs
      simp [handle_errors, hb] at hs
  | false =>
    constructor
    · refine ⟨fun hnone => ?_, fun hall => ?_⟩
      · exfalso
        simp [handle_errors, hb] at hnone
      · exfalso
        have hcontra := key.mpr hall
        rw [hb] at hcontra
        exact Bool.noConfusion hcontra
    · intro s hs
      simp [handle_errors, hb] at hs
      exact hs.symm

/-- Witness for C9: for the single record `respC`, the report is its request
text, a newline, and its error text. -/
theorem handle_errors_report_witness :
    "get(\"http://c\")\nConnection Error" = String.intercalate "\n\n"
      (([respC].filter fun r => pyTruthy r.error).map fun r =>
        r.request ++ "\n" ++ r.error.getD "") :=
  (handle_errors_report [respC]).2 "get(\"http://c\")\nConnection Error" (by decide)

/-- Counterexample for C9 as stated: a record whose error is the empty
string has a non-null error field, yet `handle_errors` presents nothing —
line 57 filters on Python truthiness, not on nullness. -/
theorem handle_errors_empty_error :
    respEmptyErr.error = Option.some "" ∧ handle_errors [respEmptyErr] = Option.none := by
  decide

/-- C8 amended: re-running the extractor on identical buffer text yields
identical settings regardless of prior invocations — always, for
`reset_env_string`, and for `reset_env_file` whenever it is not the case
that the directive resolves to a relative path while the view has no
backing file (in that one case lines 146-150 perform no assignment and the
prior `requester.env_file` value survives). -/
theorem extractor_no_state_leak (file_name : Option String)
    (exec_line : String → Option String) (text : String) (p1 p2 q1 q2 : Option String)
    (h : ∀ f, env_file_directive exec_line text = Option.some f →
      isabs f = true ∨ file_name.isSome = true) :
    reset_env_string false text p1 = reset_env_string false text p2 ∧
    reset_env_file false file_name exec_line text q1 =
      reset_env_file false file_name exec_line text q2 := by
  constructor
  · simp [reset_env_string, reset_env_string_sets, List.foldl_append]
  · unfold reset_env_file
    cases hd : env_file_directive exec_line text with
    | none => simp
    | some f =>
      rcases h f hd with habs | hsome
      · simp [habs]
      · cases file_name with
        | none => simp at hsome
        | some fp => simp

/-- Witness for C8 amended: on a buffer with no directive, both settings are
recomputed identically from the text whatever they held before. -/
theorem extractor_no_state_leak_witness :
    reset_env_string false "hello" (Option.some "x") = reset_env_string false "hello" Option.none ∧
    reset_env_file false Option.none exec_none_line "hello" (Option.some "/old/e.py") =
      reset_env_file false Option.none exec_none_line "hello" Option.none :=
  extractor_no_state_leak Option.none exec_none_line "hello" (Option.some "x") Option.none
    (Option.some "/old/e.py") Option.none (by
      intro f hf
      have hnone : env_file_directive exec_none_line "hello" = Option.none := by decide
      rw [hnone] at hf
      exact Option.noConfusion hf)

/-- Counterexample for C8 as stated: on a view with no backing file, a
buffer whose directive evaluates to the relative path `e.py` leaves
`requester.env_file` exactly as the previous invocation set it — an earlier
value survives into the later result, so the extractor is not independent of
prior invocations. -/
theorem reset_env_file_prior_survives :
    reset_env_file false Option.none exec_rel "env_file = \"e.py\"" (Option.some "/old/e.py") =
      Option.some "/old/e.py" ∧
    reset_env_file false Option.none exec_rel "env_file = \"e.py\"" Option.none = Option.none := by
  decide

lemma inline_step_eq_nil (env_string : Option String)
    (exec_inline : String → Option (List (String × PyVal))) :
    inline_step env_string exec_inline = [] ↔ inline_ok env_string exec_inline = false := by
  cases env_string with
  | none => simp [inline_step, inline_ok]
  | some s =>
    by_cases hs : s.data.isEmpty = true
    · simp [inline_step, inline_ok, hs]
    · cases he : exec_inline s with
      | none => simp [inline_step, inline_ok, hs, he]
      | some user => simp [inline_step, inline_ok, hs, he, exec_namespace_ne_nil user]

lemma file_step_eq_nil (env_dict : List (String × PyVal)) (env_file : Option String)
    (load_source : String → Option (List (String × PyVal))) :
    file_step env_dict env_file load_source = [] ↔
      env_dict = [] ∧ file_ok env_file load_source = false := by
  cases env_file with
  | none => simp [file_step, file_ok]
  | some f =>
    by_cases hf : f.data.isEmpty = true
    · simp [file_step, file_ok, hf]
    · cases hl : load_source f with
      | none => simp [file_step, file_ok, hf, hl]
      | some user =>
        have hne := updMany_ne_nil env_dict (file_namespace f user)
          (Or.inr (file_namespace_ne_nil f user))
        simp [file_step, file_ok, hf, hl, hne]

/-- C3 amended: `get_env` returns null exactly when no present source
evaluates successfully — both when both sources are absent (or falsy) and
when every present source fails to evaluate — because line 187 is
`return env_dict or None` and a still-empty dictionary is falsy. Whenever
at least one present source evaluates successfully, the result is a
non-null dictionary (the executed namespaces are never empty). The claim's
promised distinction between "both absent ⇒ null" and "present but all
failed ⇒ empty mapping" does not exist in the code. -/
theorem get_env_none_iff (env_string env_file : Option String)
    (exec_inline load_source : String → Option (List (String × PyVal))) :
    get_env env_string env_file exec_inline load_source = Option.none ↔
      inline_ok env_string exec_inline = false ∧ file_ok env_file load_source = false := by
  unfold get_env
  have h1 := inline_step_eq_nil env_string exec_inline
  have h2 := file_step_eq_nil (inline_step env_string exec_inline) env_file load_source
  by_cases hE : file_step (inline_step env_string exec_inline) env_file load_source = []
  · rcases h2.mp hE with ⟨hd0, hfok⟩
    simp [List.isEmpty_iff, hE, h1.mp hd0, hfok]
  · simp only [List.isEmpty_iff]
    rw [if_neg hE]
    simp only [reduceCtorEq, false_iff, not_and]
    intro hio hfo
    exact hE (h2.mpr ⟨h1.mpr hio, hfo⟩)

/-- Witness for C3 amended: both sources absent yields null. -/
theorem get_env_none_iff_witness :
    get_env Option.none Option.none exec_fails exec_fails = Option.none :=
  (get_env_none_iff Option.none Option.none exec_fails exec_fails).mpr ⟨rfl, rfl⟩

/-- Counterexample for C3 as stated: the inline source is present and truthy,
its evaluation fails, the file source is absent — and `get_env` returns
null, not an empty mapping. -/
theorem get_env_failed_source_returns_none :
    pyTruthy (Option.some "import missing_module") = true ∧
    get_env (Option.some "import missing_module") Option.none exec_fails exec_fails =
      Option.none := by
  decide

/-- C4 amended: with the inline source binding `{a:1, b:2}` and the file
source binding `{b:3, c:4}`, `get_env` returns a mapping in which `a = 1`,
`b = 3` and `c = 4` — file bindings overwrite inline bindings on collision
and keys present in only one source are preserved — but the
language-internal implicit names of the execution namespaces (`__name__`,
`__doc__`, `__file__`, `__builtins__`) are NOT excluded: `dict(env.__dict__)`
and `vars(env)` copy them into the result alongside the user keys. -/
theorem get_env_merge_includes_implicit :
    merged_example =
      get_env (Option.some "a = 1\nb = 2") (Option.some "/tmp/requester_env.py") exec_ab load_bc ∧
    merged_example.isSome = true ∧
    dget (merged_example.getD []) "a" = Option.some (PyVal.int 1) ∧
    dget (merged_example.getD []) "b" = Option.some (PyVal.int 3) ∧
    dget (merged_example.getD []) "c" = Option.some (PyVal.int 4) ∧
    ((merged_example.getD []).map Prod.fst).all
      (fun k => (["a", "b", "c", "__name__", "__doc__", "__file__", "__builtins__"] :
        List String).contains k) = true := by
  decide

/-- Counterexample for C4 as stated: the merged result is not exactly
`{a:1, b:3, c:4}` — it also maps the implicit module name `__name__`. -/
theorem get_env_merge_contains_name_key :
    dget (merged_example.getD []) "__name__" = Option.some (PyVal.str "requester.env") ∧
    ((["a", "b", "c"] : List String).contains "__name__") = false := by
  decide

end Requester
